import Mathlib

/-!
Verification development for the Mag / MyAnimeGif Vencord plugins.

The repository consists of four source files:
  * `src/userplugins/mag/native.ts` — the native fetch bridge `fetchMagApi`
    together with the generation-1 picker-tab plugin (direct `fetch` with an
    `AbortController`);
  * `src/userplugins/mag/index.tsx` — the generation-2 picker-tab plugin
    (all requests routed through the bridge) and the shared tab-injection
    engine (`findPickerEntries`, `injectMamTab`, `setMamActive`, cleanup);
  * the chat-bar plugin `MyAnimeGif` (modal with search / lists modes,
    preview object-URL handles);
  * the API reference documents.

Below, each TypeScript function relevant to the frozen claims is embedded as
an executable Lean definition over explicit state types.  DOM elements are
modelled by structures recording exactly the attributes the plugin reads and
writes; asynchronous effects are modelled as step functions over explicit
event traces.
-/

/- ## JSON values

Minimal JSON universe used by the bridge envelope and the error parsers. -/

inductive JsonVal where
  | str (s : String)
  | num (n : Int)
  | boolean (b : Bool)
  | null
  | arr (xs : List JsonVal)
  | obj (fields : List (String × JsonVal))

/- ## Native fetch bridge (`fetchMagApi`, native.ts lines 9–34)

The bridge performs `await fetch(url, options)` and then `await res.json()`
inside a single `try`/`catch`.  Two things can throw inside the `try`:
the `fetch` call itself (no response obtained: DNS, connection, timeout) and
`res.json()` (body is not valid JSON).  We model the environment's answer to
the request as a `FetchOutcome`: either no response with an error message, or
a response carrying `ok`/`status`/`statusText` and the result of attempting
to parse its body as JSON (`Except` of the parse-error message). -/

structure HttpResponse where
  ok : Bool
  status : Int
  statusText : String
  jsonBody : Except String JsonVal

inductive FetchOutcome where
  | response (r : HttpResponse)
  | noResponse (msg : String)

structure MagEnvelope where
  ok : Bool
  status : Int
  statusText : String
  data : JsonVal

/-- The `{ error: <message> }` object built in the `catch` arm. -/
def errorObj (msg : String) : JsonVal :=
  JsonVal.obj [("error", JsonVal.str msg)]

/-- Body of the `try` block of `fetchMagApi`: `fetch` then `res.json()`,
each of which may throw (modelled by `Except.error` carrying the thrown
message). -/
def fetchMagApiTryBody : FetchOutcome → Except String MagEnvelope
  | FetchOutcome.noResponse msg => Except.error msg
  | FetchOutcome.response r =>
    match r.jsonBody with
    | Except.error msg => Except.error msg
    | Except.ok parsed =>
      Except.ok { ok := r.ok, status := r.status, statusText := r.statusText, data := parsed }

/-- `fetchMagApi` (native.ts lines 9–34): the `try` body with the `catch`
arm that converts any thrown error into the network-failure envelope.
Totality of this function is the embedding of "never raises past its own
boundary". -/
def fetchMagApi (outcome : FetchOutcome) : MagEnvelope :=
  match fetchMagApiTryBody outcome with
  | Except.ok env => env
  | Except.error msg =>
    { ok := false, status := -1, statusText := "Network Error", data := errorObj msg }

/-- Modelled from the spec's words (claim C2): on a received response whose
body parses as JSON return `ok/status/statusText/data` verbatim; on any
failure return exactly the network-failure envelope. -/
def fetchMagApiSpec (outcome : FetchOutcome) : MagEnvelope :=
  match outcome with
  | FetchOutcome.response r =>
    match r.jsonBody with
    | Except.ok parsed =>
      { ok := r.ok, status := r.status, statusText := r.statusText, data := parsed }
    | Except.error msg =>
      { ok := false, status := -1, statusText := "Network Error", data := errorObj msg }
  | FetchOutcome.noResponse msg =>
    { ok := false, status := -1, statusText := "Network Error", data := errorObj msg }

/-- C2: for every input, the bridge operation returns a value (never raises:
`fetchMagApi` is a total function into `MagEnvelope`) and that value is
exactly the envelope demanded by the spec: the parsed-body success envelope
when a response was received and its body parsed as JSON, and
`ok=false, status=-1, statusText="Network Error", data={error: msg}`
on connection failure or JSON-parse failure. -/
theorem fetchMagApi_matches_spec (outcome : FetchOutcome) :
    fetchMagApi outcome = fetchMagApiSpec outcome := by
  cases outcome with
  | noResponse msg => rfl
  | response r =>
    cases h : r.jsonBody with
    | ok parsed => simp [fetchMagApi, fetchMagApiTryBody, fetchMagApiSpec, h]
    | error msg => simp [fetchMagApi, fetchMagApiTryBody, fetchMagApiSpec, h]

/- ## JavaScript value helpers

`parseErrorResponse` in the chat-bar plugin uses `json?.detail` (truthiness
test followed by `String(...)` conversion).  We embed the JS truthiness and
string-conversion rules for our JSON universe. -/

/-- Property access `j?.key`: `undefined` (here `none`) unless `j` is an
object carrying the key. -/
def getProp (j : JsonVal) (key : String) : Option JsonVal :=
  match j with
  | JsonVal.obj fields => fields.lookup key
  | _ => none

/-- JavaScript truthiness of a JSON value. -/
def jsTruthy : JsonVal → Bool
  | JsonVal.str s => s ≠ ""
  | JsonVal.num n => n ≠ 0
  | JsonVal.boolean b => b
  | JsonVal.null => false
  | JsonVal.arr _ => true
  | JsonVal.obj _ => true

/-- JavaScript `String(v)` on a JSON value (arrays join their elements with
commas, objects print as `[object Object]`). -/
def jsToString : JsonVal → String
  | JsonVal.str s => s
  | JsonVal.num n => toString n
  | JsonVal.boolean b => if b then "true" else "false"
  | JsonVal.null => "null"
  | JsonVal.arr xs => String.intercalate "," (xs.attach.map (fun p => jsToString p.1))
  | JsonVal.obj _ => "[object Object]"
decreasing_by
  simp_wf
  have h := List.sizeOf_lt_of_mem p.2
  omega

/- ## Error-message mapping

Picker-tab plugins (native.ts lines 124–131 and index.tsx lines 319–326):
on a non-ok response the thrown message is `"Invalid API key."` for status
401 and `"Request failed (<status>)."` otherwise; the catch handler surfaces
that message. -/

def pickerStatusMessageGen1 (status : Int) : String :=
  if status = 401 then "Invalid API key."
  else "Request failed (" ++ toString status ++ ")."

def pickerStatusMessageGen2 (status : Int) : String :=
  if status = 401 then "Invalid API key."
  else "Request failed (" ++ toString status ++ ")."

/-- Fallback part of `parseErrorResponse` (chat-bar plugin): the raw body
text if `res.text()` succeeds, else the generic message (note: no trailing
period in this plugin's generic message). -/
def parseErrorFallback (status : Int) (textBody : Except String String) : String :=
  match textBody with
  | Except.ok t => t
  | Except.error _ => "Request failed (" ++ toString status ++ ")"

/-- `parseErrorResponse` (chat-bar plugin, part_001 lines 162–171): try the
JSON body's `detail` field when truthy, else fall back to the raw text, else
to the generic message.  `jsonBody` is the result of `res.json()` and
`textBody` of `res.text()`, each of which may throw. -/
def parseErrorResponse (status : Int) (jsonBody : Except String JsonVal)
    (textBody : Except String String) : String :=
  match jsonBody with
  | Except.ok j =>
    match getProp j "detail" with
    | some d => if jsTruthy d then jsToString d else parseErrorFallback status textBody
    | none => parseErrorFallback status textBody
  | Except.error _ => parseErrorFallback status textBody

/-- C6: a 401 response with body `{"detail":"Invalid API key"}` surfaces
exactly `"Invalid API key."` in both picker-tab plugins and the literal
detail text `"Invalid API key"` in the chat-bar plugin; any other
non-success status surfaces exactly `"Request failed (<status>)."` in the
picker-tab plugins. -/
theorem errorMessage_mapping (textBody : Except String String) (s : Int) :
    pickerStatusMessageGen1 401 = "Invalid API key."
    ∧ pickerStatusMessageGen2 401 = "Invalid API key."
    ∧ parseErrorResponse 401
        (Except.ok (JsonVal.obj [("detail", JsonVal.str "Invalid API key")]))
        textBody = "Invalid API key"
    ∧ (¬(200 ≤ s ∧ s ≤ 299) → s ≠ 401 →
        pickerStatusMessageGen1 s = "Request failed (" ++ toString s ++ ")."
        ∧ pickerStatusMessageGen2 s = "Request failed (" ++ toString s ++ ").") := by
  refine ⟨rfl, rfl, ?_, fun _ hs => ?_⟩
  · cases textBody <;>
      simp [parseErrorResponse, getProp, jsTruthy, jsToString, List.lookup]
  · constructor <;> simp [pickerStatusMessageGen1, pickerStatusMessageGen2, hs]

/-- Witness for `errorMessage_mapping` at a concrete non-success status. -/
theorem errorMessage_mapping_witness :
    pickerStatusMessageGen1 500 = "Request failed (500)."
    ∧ parseErrorResponse 401
        (Except.ok (JsonVal.obj [("detail", JsonVal.str "Invalid API key")]))
        (Except.error "body used") = "Invalid API key" := by
  have h := errorMessage_mapping (Except.error "body used") 500
  exact ⟨(h.2.2.2 (by decide) (by decide)).1, h.2.2.1⟩

/- ## Sibling-panel hide / restore (`setMamActive`) and teardown

A host tab panel is modelled by the four pieces of element state that
`setMamActive` (index.tsx lines 741–782, native.ts lines 363–408) and the
binding cleanup (index.tsx lines 829–852, native.ts lines 464–490) read and
write on a sibling panel:
  * its inline `style.display` value (the empty string when no inline value
    is set, exactly as `el.style.display` reads in the DOM);
  * whether the `hidden` attribute is present;
  * the `data-vc-mam-display` dataset entry (`none` = attribute absent);
  * the `data-vc-mam-hidden` dataset entry (`none` = attribute absent). -/

structure PanelEl where
  display : String
  hiddenAttr : Bool
  vcMamDisplay : Option String
  vcMamHidden : Option String
deriving DecidableEq, Repr

/-- The `active === true` arm of the `panels.forEach` in `setMamActive`:
save the inline display (only when it is not already `"none"`), save the
`hidden` attribute (only when not already saved), then hide the panel. -/
def hidePanel (p : PanelEl) : PanelEl :=
  let p1 := if p.display ≠ "none" then { p with vcMamDisplay := some p.display } else p
  let p2 :=
    if p1.vcMamHidden = none then
      { p1 with vcMamHidden := some (if p1.hiddenAttr then "1" else "0") }
    else p1
  { p2 with display := "none", hiddenAttr := true }

/-- The `active === false` arm of the `panels.forEach` in `setMamActive`:
the whole restore is guarded by `panel.dataset.vcMamDisplay !== undefined`;
inside it, the saved display is put back and, if a saved hidden flag exists,
the `hidden` attribute is restored from it and the marker deleted. -/
def restorePanel (p : PanelEl) : PanelEl :=
  match p.vcMamDisplay with
  | none => p
  | some d =>
    let p1 := { p with display := d, vcMamDisplay := none }
    match p1.vcMamHidden with
    | none => p1
    | some h => { p1 with hiddenAttr := h = "1", vcMamHidden := none }

/-- The `panels.forEach` of the binding `cleanup` (index.tsx lines 836–841,
native.ts lines 472–477): restore the saved inline display and delete its
marker — nothing else.  The `hidden` attribute and the `data-vc-mam-hidden`
marker are not touched by the cleanup. -/
def cleanupRestorePanel (p : PanelEl) : PanelEl :=
  match p.vcMamDisplay with
  | none => p
  | some d => { p with display := d, vcMamDisplay := none }

/- Document-level state for one binding: the tab-list's custom attributes,
the synthetic tab/panel nodes, the four attached listeners, and the sibling
host panels. -/

structure MamDoc where
  boundAttr : Bool
  panelIdAttr : Bool
  tabIdAttr : Bool
  mamTabPresent : Bool
  mamPanelPresent : Bool
  listenerCount : Nat
  hostPanels : List PanelEl
deriving DecidableEq, Repr

/-- `injectMamTab` on a not-yet-bound tab-list: set the bound attribute and
the cached id attributes, append the synthetic tab, attach the four
listeners.  (The synthetic panel is NOT created here; `ensureMamPanel` runs
only from `setMamActive`.) -/
def bindDoc (d : MamDoc) : MamDoc :=
  if d.boundAttr then d
  else { d with boundAttr := true, panelIdAttr := true, tabIdAttr := true,
                mamTabPresent := true, listenerCount := 4 }

/-- `setMamActive(..., true, ...)`: `ensureMamPanel` creates the synthetic
panel if missing, every sibling panel is hidden via the save-and-hide arm,
and the synthetic panel is shown. -/
def activateDoc (d : MamDoc) : MamDoc :=
  { d with mamPanelPresent := true, hostPanels := d.hostPanels.map hidePanel }

/-- `setMamActive(..., false, ...)` (triggered by clicking a host-native
tab): every sibling panel goes through the guarded restore arm. -/
def deactivateDoc (d : MamDoc) : MamDoc :=
  { d with mamPanelPresent := true, hostPanels := d.hostPanels.map restorePanel }

/-- The registered `cleanup` run by the plugin's `stop()`: detach the four
listeners, run `cleanupRestorePanel` over the sibling panels, unmount and
remove the synthetic panel, remove the synthetic tab, clear the bound /
panel-id / tab-id attributes. -/
def teardownDoc (d : MamDoc) : MamDoc :=
  { d with listenerCount := 0,
           hostPanels := d.hostPanels.map cleanupRestorePanel,
           mamPanelPresent := false, mamTabPresent := false,
           boundAttr := false, panelIdAttr := false, tabIdAttr := false }

/-- A host panel as the host created it: some inline display, possibly the
`hidden` attribute, and no plugin markers. -/
def freshPanel (display : String) (hiddenAttr : Bool) : PanelEl :=
  { display := display, hiddenAttr := hiddenAttr,
    vcMamDisplay := none, vcMamHidden := none }

/-- A document before the plugin starts: no plugin attributes, no synthetic
nodes, no listeners. -/
def freshDoc (panels : List PanelEl) : MamDoc :=
  { boundAttr := false, panelIdAttr := false, tabIdAttr := false,
    mamTabPresent := false, mamPanelPresent := false, listenerCount := 0,
    hostPanels := panels }

/-- C3, failing input: a sibling panel whose inline display is already
`"none"` (and which has no `hidden` attribute) at activation time.  After
activating the synthetic tab and then deactivating it, the code leaves the
`hidden` attribute set and the `data-vc-mam-hidden` marker behind, instead
of restoring the panel to its pre-activation state: the save-and-hide arm
records `vcMamHidden = "0"` but skips `vcMamDisplay` (display was already
`"none"`), and the restore arm is guarded by `vcMamDisplay` being present,
so it never runs. -/
theorem restore_skips_display_none_panel :
    restorePanel (hidePanel (freshPanel "none" false)) =
      { display := "none", hiddenAttr := true,
        vcMamDisplay := none, vcMamHidden := some "0" }
    ∧ restorePanel (hidePanel (freshPanel "none" false)) ≠ freshPanel "none" false := by
  decide

/-- C1, failing input: bind the synthetic tab over a single host panel
(inline display `""`, no `hidden` attribute), activate the synthetic tab
once, then stop the plugin.  The cleanup restores the inline display and
removes the synthetic nodes, listeners and tab-list attributes, but leaves
the `hidden` attribute set and the `data-vc-mam-hidden` marker present on
the host panel, so the document is distinguishable from its pre-plugin
state. -/
theorem teardown_leaves_hidden_override :
    teardownDoc (activateDoc (bindDoc (freshDoc [freshPanel "" false]))) =
      freshDoc [{ display := "", hiddenAttr := true,
                  vcMamDisplay := none, vcMamHidden := some "0" }]
    ∧ teardownDoc (activateDoc (bindDoc (freshDoc [freshPanel "" false]))) ≠
        freshDoc [freshPanel "" false] := by
  decide

/- ## Picker-tab results state and the fetch `catch` handler

Both picker generations keep `items`, `error`, `hasMore`, `loading` state in
`MamView` and share a textually identical `catch` handler
(native.ts lines 136–141, index.tsx lines 335–341):

    if (controller.signal.aborted) return;
    setError(message);
    setItems(prev => page === 1 ? [] : prev);
    setHasMore(false);
-/

structure MamViewState where
  items : List Nat
  error : Option String
  hasMore : Bool
  loading : Bool
deriving DecidableEq, Repr

/-- The `catch` handler of the results fetch in both picker generations,
as a function of the page the failed request was for, whether the request's
controller was aborted, the error message, and the state. -/
def mamFetchCatch (page : Nat) (aborted : Bool) (msg : String)
    (s : MamViewState) : MamViewState :=
  if aborted then s
  else { s with error := some msg,
                items := if page = 1 then [] else s.items,
                hasMore := false }

/-- C9: a non-abort failure of a page-`p` fetch with `p > 1` leaves the
rendered items unchanged, sets the error message and clears the has-more
flag; only a page-1 failure clears the item grid. -/
theorem mamFetchCatch_preserves_items_beyond_page_one
    (page : Nat) (msg : String) (s : MamViewState) :
    (page ≠ 1 → (mamFetchCatch page false msg s).items = s.items)
    ∧ (mamFetchCatch 1 false msg s).items = []
    ∧ (mamFetchCatch page false msg s).error = some msg
    ∧ (mamFetchCatch page false msg s).hasMore = false := by
  refine ⟨fun hp => ?_, ?_, rfl, rfl⟩
  · simp [mamFetchCatch, hp]
  · simp [mamFetchCatch]

/-- Witness for `mamFetchCatch_preserves_items_beyond_page_one` at page 2
with concrete rendered items. -/
theorem mamFetchCatch_preserves_items_witness :
    (mamFetchCatch 2 false "Request failed (500)."
      { items := [7, 8], error := none, hasMore := true, loading := true }).items
      = [7, 8] :=
  (mamFetchCatch_preserves_items_beyond_page_one 2 "Request failed (500)."
    { items := [7, 8], error := none, hasMore := true, loading := true }).1
    (by decide)

/- ## Sending a selected GIF

Chat-bar modal `handleSend` (part_001 lines 375–380):

    const channel = getCurrentChannel();
    if (!channel) return;
    sendMessage(channel.id, { content: gif.public_url });
    close();

Picker-tab `onSend` (native.ts lines 149–162, index.tsx lines 351–363):

    const channelId = SelectedChannelStore.getChannelId();
    if (!channelId) { Toasts.show({ message: "No channel selected.", ... }); return; }
    sendMessage(channelId, { content: gif.public_url });
    ExpressionPickerStore.closeExpressionPicker();

Both are modelled as the list of externally visible actions they perform;
neither touches any component state directly. -/

inductive SendAction where
  | sendMsg (channelId : Nat) (content : String)
  | closeModalAct
  | closePickerAct
  | showFailureToast (msg : String)
deriving DecidableEq, Repr

/-- `handleSend` of the chat-bar modal. -/
def chatbarHandleSend (channel : Option Nat) (publicUrl : String) : List SendAction :=
  match channel with
  | none => []
  | some c => [SendAction.sendMsg c publicUrl, SendAction.closeModalAct]

/-- `onSend` of the picker-tab plugins. -/
def pickerOnSend (channelId : Option Nat) (publicUrl : String) : List SendAction :=
  match channelId with
  | none => [SendAction.showFailureToast "No channel selected."]
  | some c => [SendAction.sendMsg c publicUrl, SendAction.closePickerAct]

/-- C10: with no current channel, clicking a result card in the chat-bar
modal performs no action at all (no message, no toast, no modal close —
and `handleSend` never writes any modal state), whereas the picker-tab
`onSend` shows a failure toast in the same situation. -/
theorem chatbarHandleSend_silent_without_channel (publicUrl : String) :
    chatbarHandleSend none publicUrl = []
    ∧ pickerOnSend none publicUrl =
        [SendAction.showFailureToast "No channel selected."] :=
  ⟨rfl, rfl⟩

/- ## Chat-bar modal (`MyAnimeGifModal`, part_001)

State of the modal: result / list state, the `previewUrls` map of object-URL
preview handles, the `previewUrlsRef` mirror (kept in sync with
`previewUrls` by the first effect after every commit, so between events the
two are equal), and a ghost field `revoked` recording every object URL on
which `URL.revokeObjectURL` has been called. -/

structure ChatModalState where
  searchResults : List Nat
  searchHasMore : Bool
  searchError : Option String
  lists : List Nat
  listError : Option String
  listItems : List Nat
  listItemsError : Option String
  previewUrls : List (Nat × String)
  previewUrlsRef : List (Nat × String)
  revoked : List String
deriving DecidableEq, Repr

def initModal : ChatModalState :=
  { searchResults := [], searchHasMore := false, searchError := none,
    lists := [], listError := none, listItems := [], listItemsError := none,
    previewUrls := [], previewUrlsRef := [], revoked := [] }

inductive ChatMode where
  | search
  | lists
deriving DecidableEq, Repr

structure SearchRequest where
  q : String
  page : Nat
  replace : Bool
deriving DecidableEq, Repr

/-- Drop leading whitespace characters from a character list. -/
def dropLeadingSpace : List Char → List Char
  | [] => []
  | c :: rest => if c.isWhitespace then dropLeadingSpace rest else c :: rest

/-- JavaScript `String.prototype.trim`: strip whitespace from both ends
(structurally recursive embedding so that it evaluates in the kernel). -/
def jsTrim (s : String) : String :=
  String.mk (List.reverse (dropLeadingSpace (List.reverse (dropLeadingSpace s.data))))

/-- The debounced search effect (part_001 lines 320–333): outside search
mode do nothing; with an empty trimmed query clear results, has-more and
error and issue no request; otherwise schedule `runSearch(trimmed, 1, true)`
(the returned request) after the 350 ms debounce. -/
def searchDebounceEffect (mode : ChatMode) (query : String)
    (s : ChatModalState) : ChatModalState × Option SearchRequest :=
  if mode ≠ ChatMode.search then (s, none)
  else
    let trimmed := jsTrim query
    if trimmed = "" then
      ({ s with searchResults := [], searchHasMore := false, searchError := none }, none)
    else (s, some { q := trimmed, page := 1, replace := true })

/-- C7: in search mode, a query that trims to the empty string issues no
network request and clears the previously shown search results, the
has-more flag and the search error. -/
theorem emptyQuery_clears_without_request (query : String) (s : ChatModalState)
    (h : jsTrim query = "") :
    searchDebounceEffect ChatMode.search query s =
      ({ s with searchResults := [], searchHasMore := false, searchError := none },
       none) := by
  simp [searchDebounceEffect, h]

/-- Witness for `emptyQuery_clears_without_request` on a whitespace-only
query and previously shown results. -/
theorem emptyQuery_clears_witness :
    searchDebounceEffect ChatMode.search "   "
      { initModal with searchResults := [4, 5], searchHasMore := true,
                       searchError := some "old" } =
      ({ initModal with searchResults := [], searchHasMore := false,
                        searchError := none }, none) :=
  emptyQuery_clears_without_request "   "
    { initModal with searchResults := [4, 5], searchHasMore := true,
                     searchError := some "old" } (by decide)

/- ## Preview-handle lifecycle (part_001 lines 234–254, 348–368)

Three effects govern the preview handles:
  * `useEffect(..., [])` registers a cleanup that, on unmount only, revokes
    every URL in `previewUrlsRef.current`;
  * `useEffect(..., [apiBaseUrl, apiKey])` clears result / list / preview
    state when the effective base URL or the API key changes — it calls
    `setPreviewUrls({})` but performs no revocation;
  * the preview fetch effect creates a handle for each visible item whose id
    is not already in `previewUrlsRef.current`.
-/

inductive ModalEvent where
  | addPreview (id : Nat) (url : String)
  | credChange
  | unmountModal
deriving DecidableEq, Repr

/-- One modal event.  `addPreview` models the preview fetch effect storing a
freshly created object URL (skipped when the id is already present in the
ref); `credChange` models the `[apiBaseUrl, apiKey]` effect; `unmountModal`
models the unmount cleanup of the `[]` effect.  `previewUrlsRef` is kept
equal to `previewUrls` (the sync effect runs between events). -/
def previewStep (s : ChatModalState) : ModalEvent → ChatModalState
  | ModalEvent.addPreview id url =>
    match s.previewUrlsRef.lookup id with
    | some _ => s
    | none =>
      let m := s.previewUrls ++ [(id, url)]
      { s with previewUrls := m, previewUrlsRef := m }
  | ModalEvent.credChange =>
    { s with searchResults := [], lists := [], listItems := [],
             previewUrls := [], previewUrlsRef := [],
             searchError := none, listError := none, listItemsError := none }
  | ModalEvent.unmountModal =>
    { s with revoked := s.revoked ++ s.previewUrlsRef.map Prod.snd }

def runModal (s : ChatModalState) (evs : List ModalEvent) : ChatModalState :=
  evs.foldl previewStep s

/-- Does this event create a preview handle with the given url? -/
def eventAddsUrl (url : String) : ModalEvent → Bool
  | ModalEvent.addPreview _ u => u = url
  | _ => false

/-- C4, counterexample: create one preview handle, then change the
credentials, then even unmount the modal.  The handle created before the
change is never revoked — the credential-change effect only empties the
preview map, and the unmount cleanup then sees an empty ref. -/
theorem credChange_leaks_preview_handle :
    (runModal initModal
      [ModalEvent.addPreview 1 "blob:preview-1", ModalEvent.credChange,
       ModalEvent.unmountModal]).revoked = []
    ∧ (runModal initModal
        [ModalEvent.addPreview 1 "blob:preview-1"]).previewUrls =
        [(1, "blob:preview-1")] := by
  decide

/-- A handle absent from the preview map and the ref and not yet revoked
can never be revoked later, unless an event re-creates a handle with that
very url. -/
theorem leaked_handle_stays_unrevoked (url : String) :
    ∀ (evs : List ModalEvent) (s : ChatModalState),
      url ∉ s.previewUrls.map Prod.snd →
      url ∉ s.previewUrlsRef.map Prod.snd → url ∉ s.revoked →
      evs.all (fun e => !eventAddsUrl url e) = true →
      url ∉ (runModal s evs).previewUrls.map Prod.snd
      ∧ url ∉ (runModal s evs).previewUrlsRef.map Prod.snd
      ∧ url ∉ (runModal s evs).revoked := by
  intro evs
  induction evs with
  | nil => exact fun s hprev href hrev _ => ⟨hprev, href, hrev⟩
  | cons ev rest ih =>
    intro s hprev href hrev hall
    rw [List.all_cons, Bool.and_eq_true] at hall
    have hev : eventAddsUrl url ev = false := by
      simpa using hall.1
    have hstep : url ∉ (previewStep s ev).previewUrls.map Prod.snd
        ∧ url ∉ (previewStep s ev).previewUrlsRef.map Prod.snd
        ∧ url ∉ (previewStep s ev).revoked := by
      cases ev with
      | addPreview id u =>
        have hu : u ≠ url := by
          simpa [eventAddsUrl] using hev
        cases hl : s.previewUrlsRef.lookup id with
        | some v =>
          refine ⟨?_, ?_, ?_⟩ <;> simp only [previewStep, hl] <;>
            first
              | exact hprev
              | exact href
              | exact hrev
        | none =>
          have hm : url ∉ ((s.previewUrls ++ [(id, u)]).map Prod.snd) := by
            rw [List.map_append]
            intro hmem
            rcases List.mem_append.mp hmem with h1 | h2
            · exact hprev h1
            · have h2' : url = u := by simpa using h2
              exact hu h2'.symm
          refine ⟨?_, ?_, ?_⟩ <;> simp only [previewStep, hl] <;>
            first
              | exact hm
              | exact hrev
      | credChange =>
        refine ⟨by simp [previewStep], by simp [previewStep], ?_⟩
        simpa [previewStep] using hrev
      | unmountModal =>
        refine ⟨by simpa [previewStep] using hprev,
                by simpa [previewStep] using href, ?_⟩
        simp only [previewStep]
        intro hmem
        rcases List.mem_append.mp hmem with h1 | h2
        · exact hrev h1
        · exact href h2
    exact ih (previewStep s ev) hstep.1 hstep.2.1 hstep.2.2 hall.2

/-- C4, amended: changing the effective base URL or the API key clears all
result, list and preview state and resets the error fields, but revokes
nothing — and a handle that was unrevoked at the moment of the change can
never be revoked afterwards (by any sequence of later events that does not
re-create a handle with the same url), because the change empties the ref
that the unmount cleanup reads. -/
theorem credChange_clears_state_but_revokes_nothing
    (s : ChatModalState) (evs : List ModalEvent) (url : String)
    (hrev : url ∉ s.revoked)
    (hadd : evs.all (fun e => !eventAddsUrl url e) = true) :
    (previewStep s ModalEvent.credChange).searchResults = []
    ∧ (previewStep s ModalEvent.credChange).lists = []
    ∧ (previewStep s ModalEvent.credChange).listItems = []
    ∧ (previewStep s ModalEvent.credChange).previewUrls = []
    ∧ (previewStep s ModalEvent.credChange).revoked = s.revoked
    ∧ url ∉ (runModal (previewStep s ModalEvent.credChange) evs).revoked := by
  refine ⟨rfl, rfl, rfl, rfl, rfl, ?_⟩
  exact (leaked_handle_stays_unrevoked url evs (previewStep s ModalEvent.credChange)
    (by simp [previewStep]) (by simp [previewStep])
    (by simpa [previewStep] using hrev) hadd).2.2

/-- Witness for `credChange_clears_state_but_revokes_nothing`: a state
holding one live handle, followed by an unmount. -/
theorem credChange_clears_state_witness :
    "blob:preview-1" ∉
      (runModal (previewStep
          { initModal with previewUrls := [(1, "blob:preview-1")],
                           previewUrlsRef := [(1, "blob:preview-1")] }
          ModalEvent.credChange)
        [ModalEvent.unmountModal]).revoked :=
  (credChange_clears_state_but_revokes_nothing
    { initModal with previewUrls := [(1, "blob:preview-1")],
                     previewUrlsRef := [(1, "blob:preview-1")] }
    [ModalEvent.unmountModal] "blob:preview-1"
    (by decide) (by decide)).2.2.2.2.2

/- ## In-flight fetch races (`MamView` fetch effect, both generations)

Each run of the results-fetch effect (native.ts lines 96–147, index.tsx
lines 269–346) first calls `abortRef.current?.abort()` and then issues a new
request with a fresh `AbortController`.  Requests are numbered 1, 2, … in
issue order; `latestReq` is the number of the most recently issued request
and `abortedReqs` collects the controllers that have been aborted.  `items`
is the rendered grid and `itemsFrom` records which request's delivery last
wrote it (page-1 requests, which replace the grid, as in a query change).

Generation 1 performs `fetch(url, { signal: controller.signal, ... })`:
aborting the controller rejects the in-flight `fetch` / `res.json()`, so a
delivery for an aborted request can only reach the `catch` handler, whose
first line returns when `controller.signal.aborted`.  Generation 2 instead
calls `native.fetchMagApi(...)` — the abort signal is never passed to the
bridge, the IPC request is not cancelled, and the success continuation
`then(data => { setItems(...); setHasMore(...) })` never consults
`controller.signal.aborted`; only the `catch` and `finally` arms do. -/

structure FetchRaceState where
  latestReq : Nat
  abortedReqs : List Nat
  items : List Nat
  itemsFrom : Option Nat
  error : Option String
deriving DecidableEq, Repr

def initFetchRace : FetchRaceState :=
  { latestReq := 0, abortedReqs := [], items := [], itemsFrom := none,
    error := none }

inductive FetchEvent where
  | newEffectRun
  | succeed (reqId : Nat) (newItems : List Nat)
  | fail (reqId : Nat) (msg : String)
deriving DecidableEq, Repr

/-- Generation-1 step.  `newEffectRun`: abort the previous controller and
issue the next request (`setError(null)` runs too).  `succeed i`: with the
signal wired into `fetch`, a response for an aborted request rejects
instead, and the `catch` returns on `aborted` — so only a non-aborted
request's success writes the grid.  `fail i`: the `catch` handler returns
when aborted, else records the error and clears the page-1 grid. -/
def stepGen1 (s : FetchRaceState) : FetchEvent → FetchRaceState
  | FetchEvent.newEffectRun =>
    { s with abortedReqs := s.latestReq :: s.abortedReqs,
             latestReq := s.latestReq + 1, error := none }
  | FetchEvent.succeed i its =>
    if i ∈ s.abortedReqs then s
    else { s with items := its, itemsFrom := some i }
  | FetchEvent.fail i msg =>
    if i ∈ s.abortedReqs then s
    else { s with error := some msg, items := [], itemsFrom := none }

/-- Generation-2 step: identical, except that a success delivery writes the
grid unconditionally — the bridge request is not cancelled by the abort and
the success continuation never checks the signal. -/
def stepGen2 (s : FetchRaceState) : FetchEvent → FetchRaceState
  | FetchEvent.newEffectRun =>
    { s with abortedReqs := s.latestReq :: s.abortedReqs,
             latestReq := s.latestReq + 1, error := none }
  | FetchEvent.succeed i its => { s with items := its, itemsFrom := some i }
  | FetchEvent.fail i msg =>
    if i ∈ s.abortedReqs then s
    else { s with error := some msg, items := [], itemsFrom := none }

def runGen1 (s : FetchRaceState) (evs : List FetchEvent) : FetchRaceState :=
  evs.foldl stepGen1 s

def runGen2 (s : FetchRaceState) (evs : List FetchEvent) : FetchRaceState :=
  evs.foldl stepGen2 s

/-- C5, counterexample (generation 2): issue request 1, then change the
query so the effect re-runs and issues request 2 (aborting controller 1);
request 2's response arrives first, then request 1's stale response
arrives.  The stale response overwrites the newer results: the grid ends
as request 1's items even though request 2 is the most recent query. -/
theorem gen2_stale_response_overwrites :
    (runGen2 initFetchRace
      [FetchEvent.newEffectRun, FetchEvent.newEffectRun,
       FetchEvent.succeed 2 [20], FetchEvent.succeed 1 [10]]) =
      { latestReq := 2, abortedReqs := [1, 0], items := [10],
        itemsFrom := some 1, error := none }
    ∧ (runGen2 initFetchRace
        [FetchEvent.newEffectRun, FetchEvent.newEffectRun,
         FetchEvent.succeed 2 [20], FetchEvent.succeed 1 [10]]).itemsFrom ≠
        some 2 := by
  decide

/-- Every request older than the most recent one has been aborted
(generation 1). -/
def staleAborted (s : FetchRaceState) : Prop :=
  ∀ i, 1 ≤ i → i ≤ s.latestReq → i ≠ s.latestReq → i ∈ s.abortedReqs

/-- A success delivery never changes the request counter or the set of
aborted controllers (generation 1). -/
theorem stepGen1_succeed_frame (s : FetchRaceState) (i : Nat) (its : List Nat) :
    (stepGen1 s (FetchEvent.succeed i its)).latestReq = s.latestReq
    ∧ (stepGen1 s (FetchEvent.succeed i its)).abortedReqs = s.abortedReqs := by
  constructor <;> simp only [stepGen1] <;> split <;> rfl

/-- A failure delivery never changes the request counter or the set of
aborted controllers (generation 1). -/
theorem stepGen1_fail_frame (s : FetchRaceState) (i : Nat) (msg : String) :
    (stepGen1 s (FetchEvent.fail i msg)).latestReq = s.latestReq
    ∧ (stepGen1 s (FetchEvent.fail i msg)).abortedReqs = s.abortedReqs := by
  constructor <;> simp only [stepGen1] <;> split <;> rfl

theorem stepGen1_preserves_staleAborted (s : FetchRaceState) (ev : FetchEvent)
    (h : staleAborted s) : staleAborted (stepGen1 s ev) := by
  cases ev with
  | newEffectRun =>
    intro i h1 h2 h3
    simp only [stepGen1] at h2 h3 ⊢
    rcases Nat.lt_or_ge i s.latestReq with hlt | hge
    · exact List.mem_cons_of_mem _ (h i h1 (Nat.le_of_lt hlt) (Nat.ne_of_lt hlt))
    · have : i = s.latestReq := Nat.le_antisymm (by omega) hge
      exact this ▸ List.mem_cons_self _ _
  | succeed i its =>
    intro j h1 h2 h3
    rw [(stepGen1_succeed_frame s i its).1] at h2 h3
    rw [(stepGen1_succeed_frame s i its).2]
    exact h j h1 h2 h3
  | fail i msg =>
    intro j h1 h2 h3
    rw [(stepGen1_fail_frame s i msg).1] at h2 h3
    rw [(stepGen1_fail_frame s i msg).2]
    exact h j h1 h2 h3

theorem runGen1_staleAborted (evs : List FetchEvent) :
    staleAborted (runGen1 initFetchRace evs) := by
  suffices h : ∀ (l : List FetchEvent) (s : FetchRaceState),
      staleAborted s → staleAborted (l.foldl stepGen1 s) by
    refine h evs initFetchRace ?_
    intro i h1 h2 h3
    simp only [initFetchRace] at h2
    omega
  intro l
  induction l with
  | nil => exact fun s hs => hs
  | cons ev rest ih =>
    exact fun s hs => ih (stepGen1 s ev) (stepGen1_preserves_staleAborted s ev hs)

/-- C5, amended: in generation 1 the cancellation works — after any event
sequence, a success delivery for any superseded (hence aborted) request is
a strict no-op on the view state, so only the most recent query's results
can ever be rendered by a late delivery.  In generation 2 and in the
chat-bar modal there is no such protection (see
`gen2_stale_response_overwrites`). -/
theorem gen1_stale_success_is_noop (evs : List FetchEvent) (i : Nat)
    (its : List Nat) (h1 : 1 ≤ i)
    (h2 : i ≤ (runGen1 initFetchRace evs).latestReq)
    (h3 : i ≠ (runGen1 initFetchRace evs).latestReq) :
    stepGen1 (runGen1 initFetchRace evs) (FetchEvent.succeed i its) =
      runGen1 initFetchRace evs := by
  have hab : i ∈ (runGen1 initFetchRace evs).abortedReqs :=
    runGen1_staleAborted evs i h1 h2 h3
  simp [stepGen1, hab]

/-- Witness for `gen1_stale_success_is_noop`: two effect runs, then the
stale response for request 1 arrives — and changes nothing. -/
theorem gen1_stale_success_is_noop_witness :
    stepGen1 (runGen1 initFetchRace
        [FetchEvent.newEffectRun, FetchEvent.newEffectRun])
        (FetchEvent.succeed 1 [10]) =
      runGen1 initFetchRace [FetchEvent.newEffectRun, FetchEvent.newEffectRun] :=
  gen1_stale_success_is_noop
    [FetchEvent.newEffectRun, FetchEvent.newEffectRun] 1 [10]
    (by decide) (by decide) (by decide)

/- ## Discovery scan (`findPickerEntries` + `injectMamTab`)

A document is modelled for the scan as a list of tab-lists (each recording
its bound attribute and how many synthetic tabs / synthetic panels hang off
it) plus the list of candidate picker-tab panels in document order, each
represented by the index of the tab-list its controlling tab belongs to
(index ≥ `tabLists.length` models a candidate whose tab-list is gone).

`findPickerEntries` (index.tsx lines 639–653) walks the candidate panels
and deduplicates by tab-list identity via its `seen` set.  `injectMamTab`
(index.tsx lines 784–854) returns immediately when the tab-list already
carries the bound attribute; otherwise it marks it bound and appends one
synthetic tab.  No synthetic panel is created during the scan:
`ensureMamPanel` runs only from `setMamActive`, i.e. on first activation.
The scan also cannot enlarge the candidate set: the synthetic tab's id
(`mam-picker-tab-N`) does not match the panel id pattern and its
`aria-controls` target does not exist yet. -/

structure ScanTabList where
  bound : Bool
  mamTabs : Nat
  mamPanels : Nat
deriving DecidableEq, Repr

structure ScanDoc where
  tabLists : List ScanTabList
  panelOwners : List Nat
deriving DecidableEq, Repr

/-- The `seen`-set deduplication loop of `findPickerEntries`. -/
def dedupOwners (seen : List Nat) : List Nat → List Nat
  | [] => []
  | i :: rest => if i ∈ seen then dedupOwners seen rest
                 else i :: dedupOwners (i :: seen) rest

/-- `findPickerEntries`: the candidate tab-lists, deduplicated by identity,
in document order. -/
def findPickerEntries (d : ScanDoc) : List Nat :=
  dedupOwners [] d.panelOwners

/-- `injectMamTab` restricted to the state it changes on the document:
skip when the bound attribute is present, otherwise set it and append one
synthetic tab (no synthetic panel is created here). -/
def injectMamTab (d : ScanDoc) (i : Nat) : ScanDoc :=
  match d.tabLists.get? i with
  | none => d
  | some tl =>
    if tl.bound then d
    else { d with tabLists :=
            d.tabLists.set i { tl with bound := true, mamTabs := tl.mamTabs + 1 } }

/-- `scanForPicker`: run `injectMamTab` over every discovered entry. -/
def scanForPicker (d : ScanDoc) : ScanDoc :=
  (findPickerEntries d).foldl injectMamTab d

/-- One pristine tab-list with one candidate panel. -/
def scanDoc0 : ScanDoc :=
  { tabLists := [{ bound := false, mamTabs := 0, mamPanels := 0 }],
    panelOwners := [0] }

/-- C8, counterexample to the "one synthetic panel" part: scanning an
unchanged single-tab-list document twice yields exactly one synthetic tab
and NO synthetic panel — the scan never calls `ensureMamPanel`, so the
synthetic panel count per matched tab-list after two scans is 0, not 1. -/
theorem scanning_twice_creates_no_panel :
    scanForPicker (scanForPicker scanDoc0) =
      { tabLists := [{ bound := true, mamTabs := 1, mamPanels := 0 }],
        panelOwners := [0] }
    ∧ (scanForPicker (scanForPicker scanDoc0)).tabLists.map
        ScanTabList.mamPanels ≠ [1] := by
  decide

theorem mem_dedupOwners (i : Nat) :
    ∀ (xs seen : List Nat), i ∈ dedupOwners seen xs ↔ i ∈ xs ∧ i ∉ seen := by
  intro xs
  induction xs with
  | nil => simp [dedupOwners]
  | cons j rest ih =>
    intro seen
    by_cases hj : j ∈ seen
    · rw [dedupOwners, if_pos hj, ih]
      constructor
      · exact fun h => ⟨List.mem_cons_of_mem _ h.1, h.2⟩
      · rintro ⟨hij, hs⟩
        rcases List.mem_cons.mp hij with h | h
        · subst h
          exact absurd hj hs
        · exact ⟨h, hs⟩
    · rw [dedupOwners, if_neg hj]
      constructor
      · intro h
        rcases List.mem_cons.mp h with h | h
        · subst h
          exact ⟨List.mem_cons_self _ _, hj⟩
        · rcases (ih (j :: seen)).mp h with ⟨hr, hs⟩
          exact ⟨List.mem_cons_of_mem _ hr,
                 fun hm => hs (List.mem_cons_of_mem _ hm)⟩
      · rintro ⟨hij, hs⟩
        rcases List.mem_cons.mp hij with h | h
        · subst h
          exact List.mem_cons_self _ _
        · by_cases hij2 : i = j
          · subst hij2
            exact List.mem_cons_self _ _
          · refine List.mem_cons_of_mem _ ((ih (j :: seen)).mpr ⟨h, ?_⟩)
            intro hm
            rcases List.mem_cons.mp hm with h2 | h2
            · exact hij2 h2
            · exact hs h2

theorem nodup_dedupOwners :
    ∀ (xs seen : List Nat), (dedupOwners seen xs).Nodup := by
  intro xs
  induction xs with
  | nil => intro seen; simp [dedupOwners]
  | cons j rest ih =>
    intro seen
    by_cases hj : j ∈ seen
    · simpa [dedupOwners, hj] using ih seen
    · rw [dedupOwners, if_neg hj]
      refine List.Nodup.cons ?_ (ih (j :: seen))
      intro hmem
      exact ((mem_dedupOwners j rest (j :: seen)).mp hmem).2 (List.mem_cons_self _ _)

/-- `injectMamTab` never changes the candidate panels or the number of
tab-lists. -/
theorem injectMamTab_frame (d : ScanDoc) (i : Nat) :
    (injectMamTab d i).panelOwners = d.panelOwners
    ∧ (injectMamTab d i).tabLists.length = d.tabLists.length := by
  constructor <;> simp only [injectMamTab] <;>
    (cases d.tabLists.get? i with
     | none => rfl
     | some tl =>
       by_cases hb : tl.bound
       · simp [hb]
       · simp [hb, List.length_set])

/-- `injectMamTab` at index `i` leaves every other tab-list untouched. -/
theorem injectMamTab_other (d : ScanDoc) (i j : Nat) (hij : j ≠ i) :
    (injectMamTab d i).tabLists.get? j = d.tabLists.get? j := by
  unfold injectMamTab
  split
  · rfl
  · split
    · rfl
    · exact List.get?_set_ne _ _ (fun h => hij h.symm)

/-- After `injectMamTab d i`, tab-list `i` (when it exists) is bound. -/
theorem injectMamTab_binds (d : ScanDoc) (i : Nat) :
    ∀ tl, (injectMamTab d i).tabLists.get? i = some tl → tl.bound = true := by
  intro tl
  unfold injectMamTab
  split
  next hg =>
    intro h
    rw [hg] at h
    exact Option.noConfusion h
  next tl0 hg =>
    split
    next hb =>
      intro h
      rw [hg] at h
      injection h with he
      subst he
      exact hb
    next hb =>
      have hlen : i < d.tabLists.length := by
        rcases List.get?_eq_some.mp hg with ⟨hl, _⟩
        exact hl
      intro h
      have h2 : (d.tabLists.set i
          { tl0 with bound := true, mamTabs := tl0.mamTabs + 1 }).get? i =
          some tl := h
      rw [List.get?_set_eq_of_lt _ hlen] at h2
      injection h2 with he
      subst he
      rfl

/-- `injectMamTab` on an already-bound (or missing) tab-list is the
identity. -/
theorem injectMamTab_bound_id (d : ScanDoc) (i : Nat)
    (h : ∀ tl, d.tabLists.get? i = some tl → tl.bound = true) :
    injectMamTab d i = d := by
  simp only [injectMamTab]
  cases hg : d.tabLists.get? i with
  | none => rfl
  | some tl => simp [h tl hg]

/-- Folding the scan over any entry list preserves the candidate panels. -/
theorem foldScan_panelOwners :
    ∀ (l : List Nat) (d : ScanDoc),
      (l.foldl injectMamTab d).panelOwners = d.panelOwners := by
  intro l
  induction l with
  | nil => intro d; rfl
  | cons i rest ih =>
    intro d
    rw [List.foldl_cons, ih, (injectMamTab_frame d i).1]

/-- Folding the scan over an entry list leaves indices outside the list
untouched. -/
theorem foldScan_other :
    ∀ (l : List Nat) (d : ScanDoc) (j : Nat), j ∉ l →
      (l.foldl injectMamTab d).tabLists.get? j = d.tabLists.get? j := by
  intro l
  induction l with
  | nil => intro d j _; rfl
  | cons i rest ih =>
    intro d j hj
    rw [List.foldl_cons, ih _ _ (fun h => hj (List.mem_cons_of_mem _ h)),
      injectMamTab_other _ _ _
        (fun h => hj (by rw [h]; exact List.mem_cons_self _ _))]

/-- Every index in the folded entry list ends up bound. -/
theorem foldScan_binds :
    ∀ (l : List Nat) (d : ScanDoc) (j : Nat), j ∈ l →
      ∀ tl, (l.foldl injectMamTab d).tabLists.get? j = some tl →
        tl.bound = true := by
  intro l
  induction l with
  | nil => intro d j hj; exact absurd hj (by simp)
  | cons i rest ih =>
    intro d j hj tl htl
    rw [List.foldl_cons] at htl
    by_cases hr : j ∈ rest
    · exact ih _ _ hr tl htl
    · have hji : j = i := by
        rcases List.mem_cons.mp hj with h | h
        · exact h
        · exact absurd h hr
      rw [foldScan_other rest _ j hr] at htl
      exact injectMamTab_binds d i tl (hji ▸ htl)

/-- Folding the scan over entries that are all already bound (or missing)
changes nothing. -/
theorem foldScan_id :
    ∀ (l : List Nat) (d : ScanDoc),
      (∀ j ∈ l, ∀ tl, d.tabLists.get? j = some tl → tl.bound = true) →
      l.foldl injectMamTab d = d := by
  intro l
  induction l with
  | nil => intro d _; rfl
  | cons i rest ih =>
    intro d h
    rw [List.foldl_cons, injectMamTab_bound_id d i (h i (List.mem_cons_self _ _)),
      ih d (fun j hj => h j (List.mem_cons_of_mem _ hj))]

/-- `injectMamTab` on a pristine tab-list binds it and gives it exactly one
synthetic tab. -/
theorem injectMamTab_pristine (d : ScanDoc) (i : Nat)
    (hg : d.tabLists.get? i =
      some { bound := false, mamTabs := 0, mamPanels := 0 }) :
    injectMamTab d i =
      { d with tabLists :=
          d.tabLists.set i { bound := true, mamTabs := 1, mamPanels := 0 } } := by
  unfold injectMamTab
  rw [hg]
  rfl

/-- A pristine tab-list that appears in a duplicate-free entry list ends up
with the bound attribute and exactly one synthetic tab. -/
theorem foldScan_pristine :
    ∀ (l : List Nat), l.Nodup → ∀ (d : ScanDoc) (j : Nat), j ∈ l →
      d.tabLists.get? j = some { bound := false, mamTabs := 0, mamPanels := 0 } →
      (l.foldl injectMamTab d).tabLists.get? j =
        some { bound := true, mamTabs := 1, mamPanels := 0 } := by
  intro l
  induction l with
  | nil => intro _ d j hj; exact absurd hj (by simp)
  | cons i rest ih =>
    intro hnd d j hj hg
    have hnd' := List.nodup_cons.mp hnd
    rw [List.foldl_cons]
    by_cases hji : j = i
    · subst hji
      have hlen : j < d.tabLists.length := by
        rcases List.get?_eq_some.mp hg with ⟨hl, _⟩
        exact hl
      rw [foldScan_other rest _ j hnd'.1, injectMamTab_pristine d j hg]
      exact List.get?_set_eq_of_lt _ hlen
    · have hr : j ∈ rest := by
        rcases List.mem_cons.mp hj with h | h
        · exact absurd h hji
        · exact h
      exact ih hnd'.2 (injectMamTab d i) j hr
        ((injectMamTab_other d i j hji).trans hg)

/-- C8, amended: the scan is idempotent — a second scan over the unchanged
document is the identity, because every discovered tab-list already carries
the bound attribute and candidate panels are deduplicated by tab-list
identity — and over a pristine document each matched tab-list ends up with
exactly one synthetic tab and NO synthetic panel (the synthetic panel is
created only on first activation by `ensureMamPanel`), while unmatched
tab-lists are untouched. -/
theorem scan_idempotent_one_tab_no_panel (d : ScanDoc)
    (hclean : ∀ tl ∈ d.tabLists,
      tl = { bound := false, mamTabs := 0, mamPanels := 0 }) :
    scanForPicker (scanForPicker d) = scanForPicker d
    ∧ ∀ j, j < d.tabLists.length →
        (scanForPicker d).tabLists.get? j =
          some (if j ∈ d.panelOwners then
                  { bound := true, mamTabs := 1, mamPanels := 0 }
                else { bound := false, mamTabs := 0, mamPanels := 0 }) := by
  constructor
  · have hentries : findPickerEntries (scanForPicker d) = findPickerEntries d := by
      unfold findPickerEntries scanForPicker
      rw [foldScan_panelOwners]
    unfold scanForPicker
    rw [show findPickerEntries ((findPickerEntries d).foldl injectMamTab d) =
          findPickerEntries d from hentries]
    exact foldScan_id _ _ (fun j hj => foldScan_binds _ d j hj)
  · intro j hlen
    have hg : d.tabLists.get? j =
        some { bound := false, mamTabs := 0, mamPanels := 0 } := by
      cases hg0 : d.tabLists.get? j with
      | none => exact absurd (List.get?_eq_none.mp hg0) (by omega)
      | some tl => rw [hclean tl (List.get?_mem hg0)]
    by_cases hm : j ∈ d.panelOwners
    · have hmE : j ∈ findPickerEntries d := by
        rw [findPickerEntries, mem_dedupOwners]
        exact ⟨hm, by simp⟩
      rw [if_pos hm]
      exact foldScan_pristine _ (nodup_dedupOwners _ _) d j hmE hg
    · have hmE : j ∉ findPickerEntries d := by
        rw [findPickerEntries, mem_dedupOwners]
        exact fun h => hm h.1
      rw [if_neg hm, scanForPicker, foldScan_other _ _ _ hmE, hg]

/-- C8 amended, witness: two pristine tab-lists, two candidate panels both
owned by tab-list 0 (exercising the deduplication). -/
theorem scan_idempotent_witness :
    scanForPicker (scanForPicker
      { tabLists := [{ bound := false, mamTabs := 0, mamPanels := 0 },
                     { bound := false, mamTabs := 0, mamPanels := 0 }],
        panelOwners := [0, 0] }) =
      scanForPicker
        { tabLists := [{ bound := false, mamTabs := 0, mamPanels := 0 },
                       { bound := false, mamTabs := 0, mamPanels := 0 }],
          panelOwners := [0, 0] }
    ∧ (scanForPicker
        { tabLists := [{ bound := false, mamTabs := 0, mamPanels := 0 },
                       { bound := false, mamTabs := 0, mamPanels := 0 }],
          panelOwners := [0, 0] }).tabLists.get? 0 =
        some { bound := true, mamTabs := 1, mamPanels := 0 } := by
  have h := scan_idempotent_one_tab_no_panel
    { tabLists := [{ bound := false, mamTabs := 0, mamPanels := 0 },
                   { bound := false, mamTabs := 0, mamPanels := 0 }],
      panelOwners := [0, 0] } (by decide)
  refine ⟨h.1, ?_⟩
  have h2 := h.2 0 (by decide)
  simpa using h2
